import Mathlib

/-!
Verification of the slack-tradutor-bot repository against its
natural-language specification.

The development shallowly embeds the JavaScript sources:
pure computations become Lean functions, the mutable translation cache and
deduplication set become explicit state threaded through the functions,
network calls become oracle parameters (`Except`/`Option` valued), and the
message handlers become total functions from a message, a clock value, the
shared state and the oracles to the list of outbound actions they perform.

Sources embedded:
- `src/unnamed/part_000`  (DeepL variant with mention stripping and filtered target set)
- `src/index.js` (first variant: `isValidMessage`, `detectLanguage`, `translateText`)
- `src/unnamed/part_002`  (Gemini variant with `cleanJsonString` defensive parsing)
- `src/unnamed/part_009`  (Gemini variant with the `isDuplicate` deduplication set)
-/

/-! ## Language catalog and translation configuration (part_000 / index.js) -/

structure LangInfo where
  emoji : String
  name : String
  deriving Repr, DecidableEq

/-- The `LANGUAGE_MAP` of part_000 / index.js (lines 13-17 resp. 12-16). -/
def LANGUAGE_MAP : String → Option LangInfo
  | "EN" => some ⟨"🇺🇸", "Inglês"⟩
  | "ES" => some ⟨"🇪🇸", "Espanhol"⟩
  | "PT-BR" => some ⟨"🇧🇷", "Português (Brasil)"⟩
  | _ => none

/-- The `LANGUAGE_MAP[lang] || \x7b emoji: '❓', name: lang \x7d` (part_000 lines 160, 164). -/
def languageMapGet (lang : String) : LangInfo :=
  (LANGUAGE_MAP lang).getD ⟨"❓", lang⟩

/-- The `translationConfig` (part_000 lines 20-24, index.js lines 18-22), with the
JS `translationConfig[sourceLang] || []` fallback for unmapped codes folded in. -/
def translationConfig : String → List String
  | "PT-BR" => ["EN", "ES"]
  | "EN" => ["PT-BR", "ES"]
  | "ES" => ["PT-BR", "EN"]
  | _ => []

/-- The `detectedLang.startsWith('PT')` (part_000 line 144, index.js line 71). -/
def startsWithPT (d : String) : Bool :=
  match d.data with
  | 'P' :: 'T' :: _ => true
  | _ => false

/-- The `detectedLang.startsWith('PT') ? 'PT-BR' : detectedLang`
(part_000 line 144, index.js line 71). -/
def normalizeSourceLang (d : String) : String :=
  if startsWithPT d then "PT-BR" else d

/-- The `(translationConfig[sourceLang] || []).filter(lang => lang !== sourceLang)`
applied to the normalized detected language (part_000 lines 144-147). -/
def finalTargetLangsOf (detected : String) : List String :=
  (translationConfig (normalizeSourceLang detected)).filter
    (fun lang => lang != normalizeSourceLang detected)

/-! ## Error rendering (part_000 lines 43-56) -/

/-- A thrown JS error, as far as `handleDeeplError` inspects it: an axios error
carrying an HTTP response status, or anything else carrying a `message`. -/
inductive JsError where
  | http (status : Nat)
  | other (message : String)
  deriving Repr, DecidableEq

/-- The `handleDeeplError` of part_000 (lines 43-56). -/
def handleDeeplError : JsError → String
  | .http 400 => "Requisição inválida para a API do DeepL (Bad Request)."
  | .http 403 => "Chave de API do DeepL inválida ou sem permissão."
  | .http 429 => "Limite de requisições excedido. Tente novamente mais tarde."
  | .http 456 => "Cota mensal de tradução excedida."
  | .http 503 => "Serviço DeepL indisponível. Tente novamente mais tarde."
  | .http s => "Erro na API do DeepL: " ++ toString s
  | .other m => "Erro de rede ou desconhecido: " ++ m

/-! ## Translation cache and `translateText` (part_000 lines 26-28 and 58-77,
identical logic in index.js lines 24-25 and 74-93) -/

/-- The `TTL_CACHE_MS = 15 * 60 * 1000` (part_000 line 28). -/
def TTL_CACHE_MS : Nat := 15 * 60 * 1000

/-- The `MIN_MESSAGE_LENGTH = 5` (part_000 line 10, index.js line 10). -/
def MIN_MESSAGE_LENGTH : Nat := 5

/-- One value of `translationCache`: `\x7b translation, timestamp \x7d`
(part_000 line 75). -/
structure CacheEntry where
  translation : String
  timestamp : Nat
  deriving Repr, DecidableEq

/-- The `translationCache` JS `Map`, as an association list holding at most one
entry per key. -/
abbrev Cache := List (String × CacheEntry)

/-- The empty `new Map()` (part_000 line 27). -/
def emptyCache : Cache := []

/-- The `translationCache.get(cacheKey)`. -/
def cacheGet (c : Cache) (k : String) : Option CacheEntry :=
  (c.find? (fun p => p.1 == k)).map (fun p => p.2)

/-- The `translationCache.set(cacheKey, e)`: a JS `Map.set` stores at most one
entry per key, so any previous entry for the key is replaced. -/
def cacheSet (c : Cache) (k : String) (e : CacheEntry) : Cache :=
  (k, e) :: c.filter (fun p => p.1 != k)

/-- Number of entries (`translationCache.size`). -/
def cacheSize (c : Cache) : Nat := c.length

/-- The cache key `` `${text}-${targetLang}` `` (part_000 line 59). -/
def cacheKey (text targetLang : String) : String :=
  text ++ "-" ++ targetLang

/-- The hit test of part_000 lines 60-64: the value is served only when an
entry is present and `Date.now() - cachedResult.timestamp < TTL_CACHE_MS`. -/
def cacheFresh (c : Cache) (k : String) (now : Nat) : Option String :=
  match cacheGet c k with
  | some e => if now - e.timestamp < TTL_CACHE_MS then some e.translation else none
  | none => none

/-- Result of one `translateText` call: the value returned (or the error
thrown), whether an HTTP request to the provider was issued, and the cache
afterwards. -/
structure TranslateOut where
  result : Except JsError String
  providerCalled : Bool
  cache : Cache

/-- The `translateText` of part_000 lines 58-77 (same logic in index.js lines
74-93): serve a fresh cache hit without any provider call; otherwise issue the
provider call (`prov` is its outcome) and, on success, store the translation
with the current timestamp. A thrown provider error leaves the cache
untouched (the `set` on line 75 is never reached). -/
def translateText (text targetLang : String) (now : Nat) (c : Cache)
    (prov : Except JsError String) : TranslateOut :=
  match cacheFresh c (cacheKey text targetLang) now with
  | some tr => ⟨Except.ok tr, false, c⟩
  | none =>
    match prov with
    | Except.ok tr => ⟨Except.ok tr, true, cacheSet c (cacheKey text targetLang) ⟨tr, now⟩⟩
    | Except.error e => ⟨Except.error e, true, c⟩

/-! ### Cache lemmas -/

theorem cacheGet_set_self (c : Cache) (k : String) (e : CacheEntry) :
    cacheGet (cacheSet c k e) k = some e := by
  simp [cacheGet, cacheSet, List.find?]

theorem find?_filter_ne (l : List (String × CacheEntry)) (k k' : String)
    (h : k' ≠ k) :
    (l.filter (fun p => p.1 != k)).find? (fun p => p.1 == k')
      = l.find? (fun p => p.1 == k') := by
  induction l with
  | nil => rfl
  | cons p rest ih =>
    by_cases hpk : p.1 = k
    · have h1 : (p.1 != k) = false := by simp [hpk]
      have h2 : (p.1 == k') = false := by simp [hpk, Ne.symm h]
      simp [List.filter_cons, h1, List.find?_cons, h2, ih]
    · have h1 : (p.1 != k) = true := by simp [hpk]
      by_cases hp' : p.1 = k'
      · simp [List.filter_cons, h1, List.find?_cons, hp', h]
      · simp [List.filter_cons, h1, List.find?_cons, hp', ih]

theorem cacheGet_set_ne (c : Cache) (k k' : String) (e : CacheEntry)
    (h : k' ≠ k) : cacheGet (cacheSet c k e) k' = cacheGet c k' := by
  have h2 : (k == k') = false := by simp [Ne.symm h]
  simp [cacheGet, cacheSet, List.find?_cons, h2, find?_filter_ne c k k' h]

theorem cacheFresh_set_self (c : Cache) (k : String) (v : String) (ts now : Nat) :
    cacheFresh (cacheSet c k ⟨v, ts⟩) k now
      = if now - ts < TTL_CACHE_MS then some v else none := by
  simp [cacheFresh, cacheGet_set_self]

theorem cacheFresh_set_ne (c : Cache) (k k' : String) (e : CacheEntry)
    (now : Nat) (h : k' ≠ k) :
    cacheFresh (cacheSet c k e) k' now = cacheFresh c k' now := by
  simp [cacheFresh, cacheGet_set_ne c k k' e h]

theorem translateText_miss_ok (text targetLang : String) (now : Nat) (c : Cache)
    (v : String) (hmiss : cacheFresh c (cacheKey text targetLang) now = none) :
    translateText text targetLang now c (Except.ok v)
      = ⟨Except.ok v, true, cacheSet c (cacheKey text targetLang) ⟨v, now⟩⟩ := by
  simp [translateText, hmiss]

theorem translateText_hit (text targetLang : String) (now : Nat) (c : Cache)
    (v : String) (p : Except JsError String)
    (hhit : cacheFresh c (cacheKey text targetLang) now = some v) :
    translateText text targetLang now c p = ⟨Except.ok v, false, c⟩ := by
  simp [translateText, hhit]

theorem translateText_miss (text targetLang : String) (now : Nat) (c : Cache)
    (p : Except JsError String)
    (hmiss : cacheFresh c (cacheKey text targetLang) now = none) :
    (translateText text targetLang now c p).result = p
      ∧ (translateText text targetLang now c p).providerCalled = true := by
  cases p <;> simp [translateText, hmiss]

/-! ## Claim C2 — cache round trip -/

theorem string_data_append (s t : String) : (s ++ t).data = s.data ++ t.data := rfl

theorem string_length_data (s : String) : s.length = s.data.length := rfl

/-- C2: storing a translation v for (t, l) (a provider-backed `translateText`
call on a miss) and looking (t, l) up again strictly less than 15 minutes
later returns v without issuing a provider call; a lookup at or after
15 minutes from insertion is a miss: the stored value is not returned and a
fresh provider call is made (its outcome `p` is what comes back). -/
theorem C2_cache_round_trip (t lang v : String) (now0 now1 : Nat) (c : Cache)
    (p : Except JsError String)
    (hmiss : cacheFresh c (cacheKey t lang) now0 = none) :
    (translateText t lang now0 c (Except.ok v)).cache
        = cacheSet c (cacheKey t lang) ⟨v, now0⟩ ∧
    (now1 - now0 < TTL_CACHE_MS →
      translateText t lang now1 (translateText t lang now0 c (Except.ok v)).cache p
        = ⟨Except.ok v, false, (translateText t lang now0 c (Except.ok v)).cache⟩) ∧
    (now0 + TTL_CACHE_MS ≤ now1 →
      (translateText t lang now1 (translateText t lang now0 c (Except.ok v)).cache
          p).providerCalled = true ∧
      (translateText t lang now1 (translateText t lang now0 c (Except.ok v)).cache
          p).result = p) := by
  have h1 := translateText_miss_ok t lang now0 c v hmiss
  refine ⟨by rw [h1], ?_, ?_⟩
  · intro hlt
    have hhit : cacheFresh (translateText t lang now0 c (Except.ok v)).cache
        (cacheKey t lang) now1 = some v := by
      rw [h1, cacheFresh_set_self]
      exact if_pos hlt
    exact translateText_hit t lang now1 _ v p hhit
  · intro hge
    have hnot : ¬ (now1 - now0 < TTL_CACHE_MS) := by omega
    have hmiss2 : cacheFresh (translateText t lang now0 c (Except.ok v)).cache
        (cacheKey t lang) now1 = none := by
      rw [h1, cacheFresh_set_self]
      exact if_neg hnot
    exact ⟨(translateText_miss t lang now1 _ p hmiss2).2,
       (translateText_miss t lang now1 _ p hmiss2).1⟩

theorem C2_cache_round_trip_witness :
    cacheFresh emptyCache (cacheKey "Hello team" "PT-BR") 0 = none ∧
    translateText "Hello team" "PT-BR" 60000
        (translateText "Hello team" "PT-BR" 0 emptyCache (Except.ok "Olá")).cache
        (Except.ok "fresh")
      = ⟨Except.ok "Olá", false,
         (translateText "Hello team" "PT-BR" 0 emptyCache (Except.ok "Olá")).cache⟩ ∧
    (translateText "Hello team" "PT-BR" (2 * TTL_CACHE_MS)
        (translateText "Hello team" "PT-BR" 0 emptyCache (Except.ok "Olá")).cache
        (Except.ok "fresh")).providerCalled = true :=
  ⟨rfl,
   (C2_cache_round_trip "Hello team" "PT-BR" "Olá" 0 60000 emptyCache
      (Except.ok "fresh") rfl).2.1 (by decide),
   ((C2_cache_round_trip "Hello team" "PT-BR" "Olá" 0 (2 * TTL_CACHE_MS) emptyCache
      (Except.ok "fresh") rfl).2.2 (by decide)).1⟩

/-! ## Claim C10 — a cache hit never mutates the cache -/

/-- C10: a fresh cache hit returns the stored value, issues no provider call
and leaves the cache exactly as it was — the timestamp is not refreshed.
Consequently an entry inserted at time n0 is expired at every time
n2 ≥ n0 + TTL even if it served a hit at some time n1 in between: the third
call issues a provider request. -/
theorem C10_hit_never_mutates :
    (∀ t lang now c v p, cacheFresh c (cacheKey t lang) now = some v →
       translateText t lang now c p = ⟨Except.ok v, false, c⟩) ∧
    (∀ t lang v n0 n1 n2 c p1 p2,
       cacheFresh c (cacheKey t lang) n0 = none →
       n1 - n0 < TTL_CACHE_MS →
       n0 + TTL_CACHE_MS ≤ n2 →
       (translateText t lang n2
          (translateText t lang n1
             (translateText t lang n0 c (Except.ok v)).cache p1).cache
          p2).providerCalled = true) := by
  constructor
  · intro t lang now c v p hhit
    exact translateText_hit t lang now c v p hhit
  · intro t lang v n0 n1 n2 c p1 p2 hmiss hfresh hexp
    have h1 := translateText_miss_ok t lang n0 c v hmiss
    have hhit : cacheFresh (translateText t lang n0 c (Except.ok v)).cache
        (cacheKey t lang) n1 = some v := by
      rw [h1, cacheFresh_set_self]; exact if_pos hfresh
    have h2 := translateText_hit t lang n1 _ v p1 hhit
    have hmiss2 : cacheFresh (translateText t lang n1
        (translateText t lang n0 c (Except.ok v)).cache p1).cache
        (cacheKey t lang) n2 = none := by
      rw [h2, h1, cacheFresh_set_self]
      have hnot : ¬ (n2 - n0 < TTL_CACHE_MS) := by omega
      exact if_neg hnot
    exact (translateText_miss t lang n2 _ p2 hmiss2).2

theorem C10_hit_never_mutates_witness :
    cacheFresh emptyCache (cacheKey "Bom dia amigos" "EN") 0 = none ∧
    translateText "Bom dia amigos" "EN" 100
        (translateText "Bom dia amigos" "EN" 0 emptyCache (Except.ok "Good morning")).cache
        (Except.ok "other")
      = ⟨Except.ok "Good morning", false,
         (translateText "Bom dia amigos" "EN" 0 emptyCache
            (Except.ok "Good morning")).cache⟩ ∧
    (translateText "Bom dia amigos" "EN" TTL_CACHE_MS
        (translateText "Bom dia amigos" "EN" 100
           (translateText "Bom dia amigos" "EN" 0 emptyCache
              (Except.ok "Good morning")).cache (Except.ok "other")).cache
        (Except.ok "again")).providerCalled = true := by
  refine ⟨rfl, ?_, ?_⟩
  · exact C10_hit_never_mutates.1 "Bom dia amigos" "EN" 100 _ "Good morning"
      (Except.ok "other") (by rfl)
  · exact C10_hit_never_mutates.2 "Bom dia amigos" "EN" "Good morning" 0 100
      TTL_CACHE_MS emptyCache (Except.ok "other") (Except.ok "again") rfl
      (by decide) (by decide)

/-! ## Claim C3 — the cache has no capacity bound

`translationCache` (part_000 lines 27-28) is a plain `new Map()`; no code in
the repository ever calls `clear`, `delete` or checks `size`, so a put never
evicts anything. -/

theorem translateText_cache_cases (t lang : String) (now : Nat) (c : Cache)
    (p : Except JsError String) :
    (translateText t lang now c p).cache = c ∨
    ∃ v, p = Except.ok v ∧
      (translateText t lang now c p).cache
        = cacheSet c (cacheKey t lang) ⟨v, now⟩ := by
  unfold translateText
  cases h : cacheFresh c (cacheKey t lang) now with
  | some tr => exact Or.inl rfl
  | none =>
    cases p with
    | ok v => exact Or.inr ⟨v, rfl, rfl⟩
    | error e => exact Or.inl rfl

theorem translateText_fresh_put_size (t lang : String) (now : Nat) (c : Cache)
    (v : String) (hget : cacheGet c (cacheKey t lang) = none) :
    cacheSize (translateText t lang now c (Except.ok v)).cache
      = cacheSize c + 1 := by
  have hmiss : cacheFresh c (cacheKey t lang) now = none := by
    simp [cacheFresh, hget]
  rw [translateText_miss_ok t lang now c v hmiss]
  have hfind : List.find? (fun p => p.1 == cacheKey t lang) c = none := by
    cases hfind : List.find? (fun p => p.1 == cacheKey t lang) c with
    | none => rfl
    | some q => simp [cacheGet, hfind] at hget
  have hall : ∀ p ∈ c, (p.1 != cacheKey t lang) = true := by
    intro p hp
    simpa using List.find?_eq_none.mp hfind p hp
  unfold cacheSize cacheSet
  rw [List.filter_eq_self.mpr hall]
  rfl

/-- C3 (amended): `translateText` never clears the cache — each call leaves
the map untouched or adds/overwrites the single entry for its own key — and a
successful provider-backed call for a key with no existing entry grows the
entry count by exactly one. -/
theorem C3_no_capacity_bound :
    (∀ t lang now c p,
       (translateText t lang now c p).cache = c ∨
       ∃ v, p = Except.ok v ∧
         (translateText t lang now c p).cache
           = cacheSet c (cacheKey t lang) ⟨v, now⟩) ∧
    (∀ t lang now c v,
       cacheGet c (cacheKey t lang) = none →
       cacheSize (translateText t lang now c (Except.ok v)).cache
         = cacheSize c + 1) := by
  exact ⟨translateText_cache_cases, translateText_fresh_put_size⟩

theorem C3_no_capacity_bound_witness :
    cacheGet emptyCache (cacheKey "Oi pessoal" "EN") = none ∧
    cacheSize (translateText "Oi pessoal" "EN" 0 emptyCache
        (Except.ok "Hi folks")).cache = cacheSize emptyCache + 1 :=
  ⟨rfl, C3_no_capacity_bound.2 "Oi pessoal" "EN" 0 emptyCache "Hi folks" rfl⟩

/-- Message texts of pairwise distinct lengths, used to drive distinct cache
keys through `translateText`. -/
def mkText (n : Nat) : String := String.mk (List.replicate n 'a')

/-- A cache built by n provider-backed `translateText` calls on n distinct
texts, exactly as the running bot would populate `translationCache`. -/
def buildCache : Nat → Cache
  | 0 => emptyCache
  | n + 1 => (translateText (mkText n) "EN" 0 (buildCache n) (Except.ok "x")).cache

theorem cacheKey_length (t l : String) :
    (cacheKey t l).length = t.length + 1 + l.length := by
  show ((t ++ "-") ++ l).data.length = t.data.length + 1 + l.data.length
  rw [string_data_append, string_data_append, List.length_append, List.length_append]
  rfl

theorem mkText_length (n : Nat) : (mkText n).length = n := by
  show (List.replicate n 'a').length = n
  exact List.length_replicate n 'a'

theorem buildCache_key_short :
    ∀ n, ∀ p ∈ buildCache n, p.1.length < n + 3 := by
  intro n
  induction n with
  | zero => intro p hp; cases hp
  | succ n ih =>
    intro p hp
    have hget : cacheGet (buildCache n) (cacheKey (mkText n) "EN") = none := by
      unfold cacheGet
      rw [List.find?_eq_none.mpr]
      · rfl
      · intro q hq
        have hlen := ih q hq
        simp only [beq_iff_eq]
        intro hk
        rw [hk, cacheKey_length, mkText_length] at hlen
        have hEN : ("EN" : String).length = 2 := rfl
        rw [hEN] at hlen
        omega
    have hmiss : cacheFresh (buildCache n) (cacheKey (mkText n) "EN") 0 = none := by
      simp [cacheFresh, hget]
    rw [show buildCache (n + 1)
        = (translateText (mkText n) "EN" 0 (buildCache n) (Except.ok "x")).cache
        from rfl, translateText_miss_ok _ _ _ _ _ hmiss] at hp
    rcases List.mem_cons.mp hp with h | h
    · rw [h]
      have hEN : ("EN" : String).length = 2 := rfl
      simp [cacheKey_length, mkText_length, hEN]
    · exact Nat.lt_trans (ih p (List.mem_of_mem_filter h)) (by omega)

theorem buildCache_size : ∀ n, cacheSize (buildCache n) = n := by
  intro n
  induction n with
  | zero => rfl
  | succ n ih =>
    have hget : cacheGet (buildCache n) (cacheKey (mkText n) "EN") = none := by
      unfold cacheGet
      rw [List.find?_eq_none.mpr]
      · rfl
      · intro q hq
        have hlen := buildCache_key_short n q hq
        simp only [beq_iff_eq]
        intro hk
        rw [hk, cacheKey_length, mkText_length] at hlen
        have hEN : ("EN" : String).length = 2 := rfl
        rw [hEN] at hlen
        omega
    have := translateText_fresh_put_size (mkText n) "EN" 0 (buildCache n) "x" hget
    calc cacheSize (buildCache (n + 1))
        = cacheSize (buildCache n) + 1 := this
      _ = n + 1 := by rw [ih]

/-- C3 counterexample: after 1002 provider-backed puts of distinct keys the
cache holds 1002 entries — more than the 1001 the claim allows — so no
clearing at the 1000-entry bound ever happened. -/
theorem C3_counterexample :
    cacheSize (buildCache 1002) = 1002 ∧ 1001 < cacheSize (buildCache 1002) := by
  have h := buildCache_size 1002
  exact ⟨h, by rw [h]; omega⟩

/-! ## Claim C4 — the target set never contains the source language -/

theorem contains_filter_self (L : List String) (s : String) :
    (L.filter (fun l => l != s)).contains s = false := by
  induction L with
  | nil => rfl
  | cons a L ih =>
    by_cases h : a = s
    · simp [List.filter_cons, h, ih]
    · simp [List.filter_cons, h, List.contains_cons, ih, Ne.symm h]

/-- C4: for every detected source language, the fan-out target set computed on
part_000 lines 144-147 — the TranslationConfig entry of the normalized source,
with the source code explicitly filtered out — never contains the normalized
detected source language. -/
theorem C4_no_self_target (d : String) :
    (finalTargetLangsOf d).contains (normalizeSourceLang d) = false := by
  unfold finalTargetLangsOf
  exact contains_filter_self _ _

/-! ## Inbound messages and text cleaning -/

/-- The whitespace class of JS `String.prototype.trim` restricted to the
ASCII characters it strips. -/
def jsWhitespace (c : Char) : Bool :=
  c == ' ' || c == '\t' || c == '\n' || c == '\r' || c == '\x0b' || c == '\x0c'

/-- The `text.trim()`. -/
def jsTrim (s : String) : String :=
  ⟨((s.data.dropWhile jsWhitespace).reverse.dropWhile jsWhitespace).reverse⟩

/-- The `text.substring(a, b)` for a ≤ b (both uses in the corpus are
`substring(0, k)`). -/
def jsSubstring (s : String) (a b : Nat) : String :=
  ⟨(s.data.drop a).take (b - a)⟩

/-- One attempt of the regex alternation `<@[^>]+>|<#[^>]+>` at a position
just after a literal `<`: the next character must be `@` or `#`, followed by
one or more non-`>` characters and a closing `>`. On success returns the text
after the match. -/
def mentionMatch : List Char → Option (List Char)
  | t :: rest =>
    if t = '@' || t = '#' then
      match rest.dropWhile (fun c => c != '>') with
      | _ :: tail =>
        if rest.takeWhile (fun c => c != '>') = [] then none else some tail
      | [] => none
    else none
  | [] => none

/-- Left-to-right global scan of `text.replace(/<@[^>]+>|<#[^>]+>/g, '')`:
at each position either the alternation matches (the match is removed and
scanning resumes after it) or the character is kept. The fuel argument equals
the remaining input length; a successful match consumes at least three input
characters but only one unit of fuel, so the fuel never runs out when started
at the input length and the `fuel = 0` branch is unreachable. -/
def stripAux : Nat → List Char → List Char
  | 0, _ => []
  | _ + 1, [] => []
  | fuel + 1, c :: rest =>
    if c = '<' then
      match mentionMatch rest with
      | some tail => stripAux fuel tail
      | none => c :: stripAux fuel rest
    else c :: stripAux fuel rest

/-- The `message.text.replace(/<@[^>]+>|<#[^>]+>/g, '')` (part_000 line 119). -/
def stripMentions (s : String) : String :=
  ⟨stripAux s.data.length s.data⟩

/-- The cleaned text of part_000 line 119: mention/channel markup stripped,
then trimmed. -/
def cleanedText (raw : String) : String :=
  jsTrim (stripMentions raw)

/-- An inbound Slack message event, with the fields the handlers inspect. -/
structure SlackMessage where
  thread_ts : Option String
  subtype : Option String
  bot_id : Option String
  text : Option String
  ts : String

/-- A Slack Block Kit block as built by `formatSlackBlocks`. -/
inductive Block where
  | header (text : String)
  | divider
  | section (text : String)
  | context (text : String)
  deriving Repr, DecidableEq

/-- The `formatSlackBlocks` of part_000 lines 79-109 (identical in index.js lines
95-125): header, divider, one section holding the per-language lines joined
with blank lines, and a context line naming the detected source language. -/
def formatSlackBlocks (translations : List String) (sourceLang : String) : List Block :=
  [Block.header "🌍 Traduções Automáticas",
   Block.divider,
   Block.section (String.intercalate "\n\n" translations),
   Block.context ("🔠 Idioma original detectado: "
     ++ ((LANGUAGE_MAP sourceLang).map LangInfo.emoji).getD ""
     ++ " "
     ++ ((LANGUAGE_MAP sourceLang).map LangInfo.name).getD sourceLang)]

/-- One `say(...)` call: the thread it is posted to, its blocks (if any) and
its plain-text body/fallback (if any). -/
structure SayCall where
  thread_ts : String
  blocks : Option (List Block)
  text : Option String
  deriving DecidableEq

/-- Everything one handler invocation does: how many detection HTTP requests
it issued, which target languages it issued provider HTTP requests for, the
`say` calls it made, and the cache it leaves behind. -/
structure HandlerOut where
  detectCalls : Nat
  fanoutCalls : List String
  sayCalls : List SayCall
  cache : Cache

/-- Accumulated outcome of the `Promise.all` fan-out. -/
structure FanOut where
  lines : List String
  calls : List String
  cache : Cache

/-- The per-language branch rendering of part_000 lines 157-167: a successful
translation becomes `emoji *name*:\n<text>`; a thrown error is caught in the
branch and rendered as the italicised `handleDeeplError` message. -/
def renderLine000 (lang : String) (r : Except JsError String) : String :=
  match r with
  | Except.ok tr =>
    (languageMapGet lang).emoji ++ " *" ++ (languageMapGet lang).name ++ "*:\n" ++ tr
  | Except.error e =>
    (languageMapGet lang).emoji ++ " *" ++ (languageMapGet lang).name
      ++ "*:\n_" ++ handleDeeplError e ++ "_"

/-- The per-language branch rendering of index.js lines 156-165; the error
branch uses the fixed text `_Erro ao traduzir._`. -/
def renderLineIndex (lang : String) (r : Except JsError String) : String :=
  match r with
  | Except.ok tr =>
    (languageMapGet lang).emoji ++ " *" ++ (languageMapGet lang).name ++ "*:\n" ++ tr
  | Except.error _ =>
    (languageMapGet lang).emoji ++ " *" ++ (languageMapGet lang).name
      ++ "*:\n_Erro ao traduzir._"

/-- The `Promise.all(langs.map(...))` fan-out (part_000 lines 156-168,
index.js lines 155-167): one `translateText` per target language, each branch
catching its own failure. `Promise.all` keeps the results in the order of the
input array, not completion order, so the rendered lines are indexed by the
target-language list. The cache is threaded through the branches; for the
distinct per-language keys this matches the concurrent JS execution. -/
def fanOutWith (render : String → Except JsError String → String)
    (text : String) (now : Nat) :
    Cache → List String → (String → Except JsError String) → FanOut
  | c, [], _ => ⟨[], [], c⟩
  | c, lang :: rest, prov =>
    let t := translateText text lang now c (prov lang)
    let tail := fanOutWith render text now t.cache rest prov
    ⟨render lang t.result :: tail.lines,
     (if t.providerCalled then [lang] else []) ++ tail.calls,
     tail.cache⟩

/-- The `app.message` handler of part_000 (lines 115-184), with the two HTTP
outcomes supplied as oracles: `detect` is the initial detection call's
`detected_source_language` (or the error it threw), `prov lang` is the
outcome of the DeepL request for `lang` should one be issued. -/
def handler000 (m : SlackMessage) (now : Nat) (c : Cache)
    (detect : Except JsError String)
    (prov : String → Except JsError String) : HandlerOut :=
  match m.thread_ts, m.text with
  | some _, _ => ⟨0, [], [], c⟩
  | none, none => ⟨0, [], [], c⟩
  | none, some raw =>
    if raw = "" then ⟨0, [], [], c⟩
    else if (cleanedText raw).length < MIN_MESSAGE_LENGTH then ⟨0, [], [], c⟩
    else
      match detect with
      | Except.error e =>
        ⟨1, [],
         [⟨m.ts, none, some ("⚠️ Erro ao contatar a API de tradução: "
            ++ handleDeeplError e)⟩], c⟩
      | Except.ok detected =>
        let sourceLang := normalizeSourceLang detected
        let finalTargetLangs :=
          (translationConfig sourceLang).filter (fun lang => lang != sourceLang)
        if finalTargetLangs.isEmpty then ⟨1, [], [], c⟩
        else
          let fo := fanOutWith renderLine000 (cleanedText raw) now c finalTargetLangs prov
          ⟨1, fo.calls,
           [⟨m.ts, some (formatSlackBlocks fo.lines sourceLang),
             some ("Traduções para: " ++ jsSubstring (cleanedText raw) 0 50 ++ "...")⟩],
           fo.cache⟩

/-- The `isValidMessage` of index.js lines 40-44: not in a thread, text present
and truthy, and the raw trimmed text strictly longer than
MIN_MESSAGE_LENGTH. No mention markup is stripped here. -/
def isValidMessage (m : SlackMessage) : Bool :=
  m.thread_ts.isNone &&
    (match m.text with
     | none => false
     | some t => t != "" && decide (MIN_MESSAGE_LENGTH < (jsTrim t).length))

/-- The `targetLangs.length === 0` reply of index.js lines 149-153. -/
def unsupportedLangText (sourceLang : String) : String :=
  ((LANGUAGE_MAP sourceLang).map LangInfo.emoji).getD "⚠️"
    ++ " Idioma não suportado para tradução automática."

/-- The `app.message` handler of index.js (lines 131-179). Unlike part_000 it
validates on the raw trimmed text, does not filter the source language out of
`targetLangs`, and posts a visible notice when the detected language has no
configured targets. -/
def handlerIndex (m : SlackMessage) (now : Nat) (c : Cache)
    (detect : Except JsError String)
    (prov : String → Except JsError String) : HandlerOut :=
  if isValidMessage m then
    match detect with
    | Except.error e =>
      ⟨1, [],
       [⟨m.ts, none, some ("⚠️ Erro ao detectar o idioma: " ++ handleDeeplError e)⟩], c⟩
    | Except.ok detected =>
      let sourceLang := normalizeSourceLang detected
      let targetLangs := translationConfig sourceLang
      if targetLangs.isEmpty then
        ⟨1, [], [⟨m.ts, none, some (unsupportedLangText sourceLang)⟩], c⟩
      else
        let fo := fanOutWith renderLineIndex (jsTrim (m.text.getD "")) now c targetLangs prov
        ⟨1, fo.calls,
         [⟨m.ts, some (formatSlackBlocks fo.lines sourceLang), none⟩], fo.cache⟩
  else ⟨0, [], [], c⟩

/-! ## Claim C1 — short messages make no outbound call -/

/-- C1 (amended): in the part_000 handler, any message whose cleaned
(mention-stripped, trimmed) text is shorter than MIN_MESSAGE_LENGTH produces
no HTTP request of any kind and no reply; in the index.js handler the same
guarantee holds for any message whose raw trimmed text is not longer than
MIN_MESSAGE_LENGTH — index.js validates before stripping mention markup. -/
theorem C1_short_text_no_calls :
    (∀ m now c detect prov,
       (∀ raw, m.text = some raw → (cleanedText raw).length < MIN_MESSAGE_LENGTH) →
       handler000 m now c detect prov = ⟨0, [], [], c⟩) ∧
    (∀ m now c detect prov,
       (∀ raw, m.text = some raw → (jsTrim raw).length ≤ MIN_MESSAGE_LENGTH) →
       handlerIndex m now c detect prov = ⟨0, [], [], c⟩) := by
  constructor
  · intro m now c detect prov h
    obtain ⟨mthread, msub, mbot, mtext, mts⟩ := m
    cases mthread with
    | some v => rfl
    | none =>
      cases mtext with
      | none => rfl
      | some raw =>
        have hlen := h raw rfl
        by_cases hraw : raw = ""
        · simp [handler000, hraw]
        · simp [handler000, hraw, hlen]
  · intro m now c detect prov h
    have hval : isValidMessage m = false := by
      unfold isValidMessage
      cases htext : m.text with
      | none => simp
      | some raw =>
        have hlen := h raw htext
        simp [Nat.not_lt.mpr hlen]
    simp [handlerIndex, hval]

theorem C1_short_text_no_calls_witness :
    (cleanedText "Oi!?").length = 4 ∧
    handler000 ⟨none, none, none, some "Oi!?", "1.0"⟩ 7 emptyCache
        (Except.ok "EN") (fun _ => Except.ok "x") = ⟨0, [], [], emptyCache⟩ ∧
    handlerIndex ⟨none, none, none, some "Oi!?", "1.0"⟩ 7 emptyCache
        (Except.ok "EN") (fun _ => Except.ok "x") = ⟨0, [], [], emptyCache⟩ := by
  refine ⟨by decide, ?_, ?_⟩
  · exact C1_short_text_no_calls.1 _ 7 emptyCache _ _
      (by intro raw hraw; cases hraw; decide)
  · exact C1_short_text_no_calls.2 _ 7 emptyCache _ _
      (by intro raw hraw; cases hraw; decide)

/-- C1 counterexample: for the index.js handler the claim fails as stated.
The message text consists of a user mention plus the two-character word
`hi`, so its cleaned (mention-stripped, trimmed) text has length 2 — below
the threshold — yet `isValidMessage` accepts the raw 16-character text and
the handler issues the detection HTTP request and posts a reply. -/
theorem C1_counterexample :
    (cleanedText "<@U0AB12CD34> hi").length = 2 ∧
    (handlerIndex ⟨none, none, none, some "<@U0AB12CD34> hi", "2.0"⟩ 0 emptyCache
        (Except.ok "EN") (fun _ => Except.ok "x")).detectCalls = 1 ∧
    (handlerIndex ⟨none, none, none, some "<@U0AB12CD34> hi", "2.0"⟩ 0 emptyCache
        (Except.ok "EN") (fun _ => Except.ok "x")).sayCalls.length = 1 := by
  refine ⟨by decide, by decide, by decide⟩

/-! ## Claim C9 — catch-all notices and exception text -/

/-- The user-visible notice of the index.js catch-all (lines 172-178):
`` `⚠️ Ocorreu um erro inesperado: ${error.message.substring(0, 50)}...` ``. -/
def unexpectedNoticeIndex (errMessage : String) : String :=
  "⚠️ Ocorreu um erro inesperado: " ++ jsSubstring errMessage 0 50 ++ "..."

/-- The user-visible notice of the part_000 catch-all (lines 177-183):
`` `⚠️ Ocorreu um erro inesperado: ${error.message}` `` — no truncation. -/
def unexpectedNoticePart000 (errMessage : String) : String :=
  "⚠️ Ocorreu um erro inesperado: " ++ errMessage

/-- C9 (amended): the index.js catch-all notice embeds only
`errMessage.substring(0, 50)` — a prefix of at most 50 characters of the
exception message — followed by a fixed ellipsis; the part_000 catch-all
instead embeds the entire exception message. -/
theorem C9_bounded_notice (errMessage : String) :
    unexpectedNoticeIndex errMessage
      = "⚠️ Ocorreu um erro inesperado: " ++ jsSubstring errMessage 0 50 ++ "..." ∧
    (jsSubstring errMessage 0 50).length ≤ 50 ∧
    unexpectedNoticePart000 errMessage
      = "⚠️ Ocorreu um erro inesperado: " ++ errMessage := by
  refine ⟨rfl, ?_, rfl⟩
  show ((errMessage.data.drop 0).take (50 - 0)).length ≤ 50
  calc ((errMessage.data.drop 0).take (50 - 0)).length
      ≤ 50 - 0 := List.length_take_le _ _
    _ ≤ 50 := by omega

/-- A concrete 60-character exception message. -/
def longErrMessage : String :=
  "connect ECONNREFUSED 127.0.0.1:443 after 30000ms of waiting."

/-- C9 counterexample: the part_000 catch-all notice contains the full raw
60-character exception text — more than any 50-character bounded prefix —
so the claim, quantified over both cited catch-alls, is false. -/
theorem C9_counterexample :
    longErrMessage.length = 60 ∧
    List.IsInfix longErrMessage.data (unexpectedNoticePart000 longErrMessage).data := by
  constructor
  · decide
  · exact ⟨("⚠️ Ocorreu um erro inesperado: " : String).data, [],
      by simp [unexpectedNoticePart000, string_data_append]⟩

/-! ## Claim C5 — partial failure isolation and deterministic ordering -/

theorem translationConfig_nodup (s : String) : (translationConfig s).Nodup := by
  unfold translationConfig
  split <;> decide

theorem finalTargetLangsOf_nodup (d : String) : (finalTargetLangsOf d).Nodup :=
  (translationConfig_nodup _).filter _

theorem cacheKey_inj_right (t a b : String) (h : cacheKey t a = cacheKey t b) :
    a = b := by
  have hdata := congrArg String.data h
  simp only [cacheKey, string_data_append] at hdata
  exact String.ext (List.append_cancel_left hdata)

/-- The fan-out collects its per-language outcomes in the order of the input
target-language list (the `Promise.all` input order), one rendered line per
language, regardless of which branches fail: provided the languages are
distinct and none is freshly cached, each line is the rendering of that
language's own provider outcome. -/
theorem fanOutWith_lines (render : String → Except JsError String → String)
    (text : String) (now : Nat) (prov : String → Except JsError String) :
    ∀ (langs : List String) (c : Cache), langs.Nodup →
      (∀ l ∈ langs, cacheFresh c (cacheKey text l) now = none) →
      (fanOutWith render text now c langs prov).lines
        = langs.map (fun l => render l (prov l)) := by
  intro langs
  induction langs with
  | nil => intro c _ _; rfl
  | cons lang rest ih =>
    intro c hnd hmiss
    have hm : cacheFresh c (cacheKey text lang) now = none :=
      hmiss lang (List.mem_cons_self _ _)
    have hres : (translateText text lang now c (prov lang)).result = prov lang :=
      (translateText_miss text lang now c (prov lang) hm).1
    have htailmiss : ∀ l ∈ rest,
        cacheFresh (translateText text lang now c (prov lang)).cache
          (cacheKey text l) now = none := by
      intro l hl
      have hne : l ≠ lang := by
        intro heq
        exact (List.nodup_cons.mp hnd).1 (heq ▸ hl)
      have hkey : cacheKey text l ≠ cacheKey text lang := by
        intro hk
        exact hne (cacheKey_inj_right text l lang hk)
      rcases translateText_cache_cases text lang now c (prov lang) with hc | ⟨v, _, hc⟩
      · rw [hc]
        exact hmiss l (List.mem_cons_of_mem _ hl)
      · rw [hc, cacheFresh_set_ne _ _ _ _ _ hkey]
        exact hmiss l (List.mem_cons_of_mem _ hl)
    show (fanOutWith render text now c (lang :: rest) prov).lines = _
    unfold fanOutWith
    simp only [List.map_cons]
    rw [hres, ih _ (List.nodup_cons.mp hnd).2 htailmiss]

/-- C5: with N distinct target languages resolved from TranslationConfig for
detected language d, none freshly cached, exactly one of them (f) failing and
all others succeeding, the fan-out yields exactly N rendered sections, in the
order of the TranslationConfig-derived list (not completion order); the
failed language's section carries the italicised error message and each other
section carries its own translation. -/
theorem C5_partial_failure_isolation (d f t : String) (e : JsError)
    (now : Nat) (c : Cache) (prov : String → Except JsError String)
    (hf : f ∈ finalTargetLangsOf d)
    (hpe : prov f = Except.error e)
    (hok : ∀ l ∈ finalTargetLangsOf d, l ≠ f → ∃ w, prov l = Except.ok w)
    (hmiss : ∀ l ∈ finalTargetLangsOf d, cacheFresh c (cacheKey t l) now = none) :
    (fanOutWith renderLine000 t now c (finalTargetLangsOf d) prov).lines
        = (finalTargetLangsOf d).map (fun l => renderLine000 l (prov l)) ∧
    (fanOutWith renderLine000 t now c (finalTargetLangsOf d) prov).lines.length
        = (finalTargetLangsOf d).length ∧
    renderLine000 f (prov f)
        = (languageMapGet f).emoji ++ " *" ++ (languageMapGet f).name
            ++ "*:\n_" ++ handleDeeplError e ++ "_" ∧
    (∀ l ∈ finalTargetLangsOf d, l ≠ f → ∃ w, prov l = Except.ok w ∧
        renderLine000 l (prov l)
          = (languageMapGet l).emoji ++ " *" ++ (languageMapGet l).name
              ++ "*:\n" ++ w) := by
  have hmap := fanOutWith_lines renderLine000 t now prov (finalTargetLangsOf d) c
    (finalTargetLangsOf_nodup d) hmiss
  refine ⟨hmap, by rw [hmap, List.length_map], ?_, ?_⟩
  · rw [hpe]
    rfl
  · intro l hl hne
    obtain ⟨w, hw⟩ := hok l hl hne
    refine ⟨w, hw, ?_⟩
    rw [hw]
    rfl

/-- The provider oracle of the C5 witness scenario: the Portuguese branch
fails with HTTP 503, every other branch succeeds. -/
def provC5 : String → Except JsError String :=
  fun l => if l = "PT-BR" then Except.error (JsError.http 503) else Except.ok "gran trabajo"

theorem C5_partial_failure_isolation_witness :
    "PT-BR" ∈ finalTargetLangsOf "EN" ∧
    (fanOutWith renderLine000 "Great work today" 0 emptyCache
        (finalTargetLangsOf "EN") provC5).lines
      = (finalTargetLangsOf "EN").map (fun l => renderLine000 l (provC5 l)) ∧
    (fanOutWith renderLine000 "Great work today" 0 emptyCache
        (finalTargetLangsOf "EN") provC5).lines.length
      = (finalTargetLangsOf "EN").length ∧
    renderLine000 "PT-BR" (provC5 "PT-BR")
      = (languageMapGet "PT-BR").emoji ++ " *" ++ (languageMapGet "PT-BR").name
          ++ "*:\n_" ++ handleDeeplError (JsError.http 503) ++ "_" := by
  have hok : ∀ l ∈ finalTargetLangsOf "EN", l ≠ "PT-BR" →
      ∃ w, provC5 l = Except.ok w := by
    intro l hl hne
    have hlist : finalTargetLangsOf "EN" = ["PT-BR", "ES"] := by decide
    rw [hlist] at hl
    rcases List.mem_cons.mp hl with h | h
    · exact absurd h hne
    · have h' : l = "ES" := by simpa using h
      exact ⟨"gran trabajo", by rw [h']; rfl⟩
  have h := C5_partial_failure_isolation "EN" "PT-BR" "Great work today"
    (JsError.http 503) 0 emptyCache provC5 (by decide) (by rfl) hok
    (fun l _ => rfl)
  exact ⟨by decide, h.1, h.2.1, h.2.2.1⟩

/-! ## Claim C6 — deduplication by message identifier (part_009) -/

/-- The `processedIds` of part_009 line 40 together with the pending
`setTimeout(() => processedIds.delete(id), 60000)` timers (line 47): each
element records an id and the time it was added; the timer removes it 60000
ms later, so an element is still in the JS set at observation time `now`
exactly when `now < addedAt + 60000`. Purging fired timers at observation
time gives the same observable behaviour as the JS timer queue. -/
abbrev DedupState := List (String × Nat)

/-- The elements whose deletion timer has not fired yet at `now`. -/
def dedupActive (s : DedupState) (now : Nat) : DedupState :=
  s.filter (fun p => decide (now < p.2 + 60000))

/-- The `isDuplicate` of part_009 lines 42-49: report true for an id already in
the set; otherwise record the id (scheduling its deletion 60 s later) and
report false. -/
def isDuplicate (id : String) (now : Nat) (s : DedupState) : Bool × DedupState :=
  if (dedupActive s now).any (fun p => p.1 == id) then (true, dedupActive s now)
  else (false, (id, now) :: dedupActive s now)

/-- The `LANGUAGE_MAP` of the Gemini variants (part_002 lines 32-36, part_009
lines 30-34): same codes, Portuguese display name without the regional tag. -/
def LANGUAGE_MAP9 : String → Option LangInfo
  | "EN" => some ⟨"🇺🇸", "Inglês"⟩
  | "ES" => some ⟨"🇪🇸", "Espanhol"⟩
  | "PT-BR" => some ⟨"🇧🇷", "Português"⟩
  | _ => none

/-- One `\x7b lang, text \x7d` element of the parsed `translations` array. -/
structure GeminiEntry where
  lang : String
  text : String
  deriving DecidableEq

/-- The structured output the Gemini variants expect from `JSON.parse`:
`\x7b sourceLang, translations \x7d`; `translations` is `none` when the field
is absent from the parsed object. -/
structure GeminiResult where
  sourceLang : String
  translations : Option (List GeminiEntry)
  deriving DecidableEq

/-- The `s.toUpperCase()` on the ASCII language codes involved. -/
def jsToUpper (s : String) : String := s.map Char.toUpper

/-- One translation section block of part_009 lines 165-173. -/
def gemini9EntryBlock (t : GeminiEntry) : Block :=
  Block.section
    (((LANGUAGE_MAP9 (jsToUpper (if t.lang = "PT" then "PT-BR" else t.lang))).getD
        ⟨"🏳️", jsToUpper (if t.lang = "PT" then "PT-BR" else t.lang)⟩).emoji
      ++ " *"
      ++ ((LANGUAGE_MAP9 (jsToUpper (if t.lang = "PT" then "PT-BR" else t.lang))).getD
        ⟨"🏳️", jsToUpper (if t.lang = "PT" then "PT-BR" else t.lang)⟩).name
      ++ "*:\n" ++ t.text)

/-- The reply blocks of part_009 lines 157-181. -/
def gemini9Blocks (r : GeminiResult) (entries : List GeminiEntry) : List Block :=
  [Block.header "✨ Tradução", Block.divider]
    ++ entries.map gemini9EntryBlock
    ++ [Block.context ("🔠 Original: "
        ++ ((LANGUAGE_MAP9 (jsToUpper (if r.sourceLang = "PT" then "PT-BR" else r.sourceLang))).getD
            ⟨"🌐", jsToUpper (if r.sourceLang = "PT" then "PT-BR" else r.sourceLang)⟩).emoji
        ++ " "
        ++ ((LANGUAGE_MAP9 (jsToUpper (if r.sourceLang = "PT" then "PT-BR" else r.sourceLang))).getD
            ⟨"🌐", jsToUpper (if r.sourceLang = "PT" then "PT-BR" else r.sourceLang)⟩).name)]

/-- Result of one part_009 handler invocation: the `say` calls it made and
the deduplication state it leaves behind. -/
structure Handler009Out where
  sayCalls : List SayCall
  dedup : DedupState

/-- The `app.message` handler of part_009 (lines 132-192): basic filters,
then the duplicate-id gate, then length validation, then the single Gemini
call (`result` is its parsed outcome) and the reply. All paths after the
duplicate check keep the id recorded. -/
def handler009 (m : SlackMessage) (now : Nat) (s : DedupState)
    (result : Option GeminiResult) : Handler009Out :=
  if m.thread_ts.isSome || m.subtype.isSome || m.bot_id.isSome then ⟨[], s⟩
  else
    match m.text with
    | none => ⟨[], s⟩
    | some raw =>
      if raw = "" then ⟨[], s⟩
      else
        if (isDuplicate m.ts now s).1 then ⟨[], (isDuplicate m.ts now s).2⟩
        else
          if (cleanedText raw).length < MIN_MESSAGE_LENGTH then
            ⟨[], (isDuplicate m.ts now s).2⟩
          else
            match result with
            | none => ⟨[], (isDuplicate m.ts now s).2⟩
            | some r =>
              match r.translations with
              | none => ⟨[], (isDuplicate m.ts now s).2⟩
              | some entries =>
                ⟨[⟨m.ts, some (gemini9Blocks r entries), some "Tradução disponível"⟩],
                 (isDuplicate m.ts now s).2⟩

/-- C6: for a message passing the basic filters whose id is not in the dedup
set, the first `isDuplicate` call returns false and records the id, every
call with the same id strictly within the 60 s window returns true, and of
two handler invocations carrying that id within the window only the first
replies — the pair produces exactly one outbound reply. -/
theorem C6_deduplication (m : SlackMessage) (t1 t2 : Nat) (s : DedupState)
    (res1 res2 : Option GeminiResult) (raw : String) (r : GeminiResult)
    (entries : List GeminiEntry)
    (hthread : m.thread_ts = none) (hsub : m.subtype = none) (hbot : m.bot_id = none)
    (htext : m.text = some raw) (hraw : raw ≠ "")
    (hlen : MIN_MESSAGE_LENGTH ≤ (cleanedText raw).length)
    (hres : res1 = some r) (hentries : r.translations = some entries)
    (hunseen : (dedupActive s t1).any (fun p => p.1 == m.ts) = false)
    (hwin : t2 < t1 + 60000) :
    (isDuplicate m.ts t1 s).1 = false ∧
    (isDuplicate m.ts t2 (isDuplicate m.ts t1 s).2).1 = true ∧
    (handler009 m t1 s res1).sayCalls.length = 1 ∧
    (handler009 m t2 (handler009 m t1 s res1).dedup res2).sayCalls = [] ∧
    ((handler009 m t1 s res1).sayCalls
      ++ (handler009 m t2 (handler009 m t1 s res1).dedup res2).sayCalls).length = 1 := by
  have d1 : isDuplicate m.ts t1 s = (false, (m.ts, t1) :: dedupActive s t1) := by
    simp [isDuplicate, hunseen]
  have h2 : (dedupActive ((m.ts, t1) :: dedupActive s t1) t2).any
      (fun p => p.1 == m.ts) = true := by
    simp [dedupActive, List.filter_cons, hwin]
  have d2 : (isDuplicate m.ts t2 ((m.ts, t1) :: dedupActive s t1)).1 = true := by
    simp [isDuplicate, h2]
  have hout1 : handler009 m t1 s res1
      = ⟨[⟨m.ts, some (gemini9Blocks r entries), some "Tradução disponível"⟩],
         (m.ts, t1) :: dedupActive s t1⟩ := by
    simp [handler009, hthread, hsub, hbot, htext, hraw, d1, Nat.not_lt.mpr hlen,
      hres, hentries]
  have hout2 : (handler009 m t2 ((m.ts, t1) :: dedupActive s t1) res2).sayCalls = [] := by
    unfold handler009
    rw [hthread, hsub, hbot, htext]
    simp only [Option.isSome_none, Bool.or_self, Bool.false_or, if_neg hraw]
    simp [hraw, d2]
  refine ⟨by rw [d1], ?_, ?_, ?_, ?_⟩
  · rw [d1]
    exact d2
  · simp only [hout1]
    rfl
  · simp only [hout1]
    exact hout2
  · simp only [hout1]
    simp [hout2]

theorem C6_deduplication_witness :
    (isDuplicate "1700000000.000100" 0 []).1 = false ∧
    (isDuplicate "1700000000.000100" 30000 (isDuplicate "1700000000.000100" 0 []).2).1 = true ∧
    ((handler009 ⟨none, none, none, some "Hello team, great work", "1700000000.000100"⟩ 0 []
        (some ⟨"EN", some [⟨"PT-BR", "Olá time, ótimo trabalho"⟩]⟩)).sayCalls
      ++ (handler009 ⟨none, none, none, some "Hello team, great work", "1700000000.000100"⟩
            30000
            (handler009 ⟨none, none, none, some "Hello team, great work", "1700000000.000100"⟩ 0 []
              (some ⟨"EN", some [⟨"PT-BR", "Olá time, ótimo trabalho"⟩]⟩)).dedup
            (some ⟨"EN", some [⟨"PT-BR", "Olá time, ótimo trabalho"⟩]⟩)).sayCalls).length
      = 1 := by
  have h := C6_deduplication
    ⟨none, none, none, some "Hello team, great work", "1700000000.000100"⟩ 0 30000 []
    (some ⟨"EN", some [⟨"PT-BR", "Olá time, ótimo trabalho"⟩]⟩)
    (some ⟨"EN", some [⟨"PT-BR", "Olá time, ótimo trabalho"⟩]⟩)
    "Hello team, great work" ⟨"EN", some [⟨"PT-BR", "Olá time, ótimo trabalho"⟩]⟩
    [⟨"PT-BR", "Olá time, ótimo trabalho"⟩]
    rfl rfl rfl rfl (by decide) (by decide) rfl rfl (by decide) (by decide)
  exact ⟨h.1, h.2.1, h.2.2.2.2⟩

/-! ## Claim C7 — defensive parsing of the generative provider (part_002) -/

/-- The backtick character, written by code point to keep it out of the
source text. -/
def backquote : Char := Char.ofNat 96

/-- Match `pat` (under character equivalence `eqc`) against a prefix of the
input; on success return the input after the match. -/
def matchDrop (eqc : Char → Char → Bool) : List Char → List Char → Option (List Char)
  | [], s => some s
  | _ :: _, [] => none
  | p :: ps, c :: cs => if eqc p c then matchDrop eqc ps cs else none

/-- Left-to-right global scan of `text.replace(pat, '')`: wherever `pat`
matches, the match is removed and scanning resumes after it; other characters
are kept. The fuel argument starts at the input length; a successful match of
the nonempty patterns used here consumes at least three characters but one
unit of fuel, so the `fuel = 0` branch is unreachable. -/
def stripMatchesAux (eqc : Char → Char → Bool) (pat : List Char) :
    Nat → List Char → List Char
  | 0, _ => []
  | _ + 1, [] => []
  | fuel + 1, c :: rest =>
    match matchDrop eqc pat (c :: rest) with
    | some rest' => stripMatchesAux eqc pat fuel rest'
    | none => c :: stripMatchesAux eqc pat fuel rest

/-- Case-insensitive character comparison, for the `/i` regex flag. -/
def eqCI (a b : Char) : Bool := a.toLower == b.toLower

/-- Exact character comparison. -/
def eqEx (a b : Char) : Bool := a == b

/-- The pattern of part_002 line 57: three backticks followed by `json`. -/
def fenceJsonPat : List Char := [backquote, backquote, backquote, 'j', 's', 'o', 'n']

/-- The pattern of part_002 line 58: three backticks. -/
def fencePat : List Char := [backquote, backquote, backquote]

/-- The `cleanJsonString` of part_002 lines 53-60: an absent/empty argument
yields the empty JSON object text; otherwise all case-insensitive
occurrences of the json code-fence opener are removed, then all remaining
triple-backtick fences, then the result is trimmed. -/
def cleanJsonString (s : String) : String :=
  if s = "" then "\x7b\x7d"
  else
    jsTrim ⟨stripMatchesAux eqEx fencePat
      (stripMatchesAux eqCI fenceJsonPat s.data.length s.data).length
      (stripMatchesAux eqCI fenceJsonPat s.data.length s.data)⟩

/-- The candidate of the Gemini HTTP response, as far as `translate` inspects
it: `finishReason` and `content.parts[0].text`. -/
structure GeminiCandidate where
  finishReason : Option String
  rawText : Option String

/-- Outcome of the Gemini HTTP request: a thrown axios/API error, or a
response whose first candidate may be absent. -/
inductive GeminiResponse where
  | apiError (message : String)
  | ok (candidate : Option GeminiCandidate)

/-- The safety gate of part_002 line 96:
`candidate?.finishReason && candidate.finishReason !== 'STOP'` — the block
fires only when `finishReason` is present, truthy (non-empty) and not
`STOP`. -/
def finishBlocked (fr : Option String) : Bool :=
  match fr with
  | some r => r != "" && r != "STOP"
  | none => false

/-- The `GeminiService.translate` of part_002 lines 62-118, with the HTTP
outcome and `JSON.parse` as oracles. Every failure path — thrown API error,
missing candidate or raw text, safety block, JSON parse failure (a `none`
from `parseJson`) — yields `none` rather than an exception. -/
def geminiTranslate (resp : GeminiResponse)
    (parseJson : String → Option GeminiResult) : Option GeminiResult :=
  match resp with
  | GeminiResponse.apiError _ => none
  | GeminiResponse.ok none => none
  | GeminiResponse.ok (some cand) =>
    if finishBlocked cand.finishReason then none
    else
      match cand.rawText with
      | none => none
      | some raw =>
        if raw = "" then none
        else parseJson (cleanJsonString raw)

/-- One translation section block of part_002 lines 175-183. -/
def gemini2EntryBlock (t : GeminiEntry) : Block :=
  Block.section
    (((LANGUAGE_MAP9 (jsToUpper (if t.lang = "PT" then "PT-BR" else t.lang))).getD
        ⟨"🏳️", jsToUpper (if t.lang = "PT" then "PT-BR" else t.lang)⟩).emoji
      ++ " *"
      ++ ((LANGUAGE_MAP9 (jsToUpper (if t.lang = "PT" then "PT-BR" else t.lang))).getD
        ⟨"🏳️", jsToUpper (if t.lang = "PT" then "PT-BR" else t.lang)⟩).name
      ++ "*:\n" ++ t.text)

/-- The reply blocks of part_002 lines 167-191. -/
def gemini2Blocks (r : GeminiResult) (entries : List GeminiEntry) : List Block :=
  [Block.header "✨ Tradução Inteligente", Block.divider]
    ++ entries.map gemini2EntryBlock
    ++ [Block.context ("🔠 Original: "
        ++ ((LANGUAGE_MAP9 (jsToUpper (if r.sourceLang = "PT" then "PT-BR" else r.sourceLang))).getD
            ⟨"🌐", jsToUpper (if r.sourceLang = "PT" then "PT-BR" else r.sourceLang)⟩).emoji
        ++ " "
        ++ ((LANGUAGE_MAP9 (jsToUpper (if r.sourceLang = "PT" then "PT-BR" else r.sourceLang))).getD
            ⟨"🌐", jsToUpper (if r.sourceLang = "PT" then "PT-BR" else r.sourceLang)⟩).name
        ++ " | _Gemini Pro_")]

/-- The reply guard of part_002 line 161:
`if (!result || !result.translations || result.translations.length === 0) return`. -/
def geminiReplyGuard (result : Option GeminiResult) :
    Option (GeminiResult × List GeminiEntry) :=
  match result with
  | none => none
  | some r =>
    match r.translations with
    | none => none
    | some [] => none
    | some entries => some (r, entries)

/-- The `app.message` handler of part_002 (lines 146-202), with the
`aiService.translate` outcome supplied as `result`. It returns the list of
`say` calls made; a `none` or empty-translations result produces none. -/
def handler002 (m : SlackMessage) (result : Option GeminiResult) : List SayCall :=
  if m.thread_ts.isSome then []
  else if m.subtype.isSome || m.bot_id.isSome then []
  else
    match m.text with
    | none => []
    | some raw =>
      if raw = "" then []
      else if (cleanedText raw).length < MIN_MESSAGE_LENGTH then []
      else
        match geminiReplyGuard result with
        | none => []
        | some (r, entries) =>
          [⟨m.ts, some (gemini2Blocks r entries),
            some ("Tradução disponível para: " ++ jsSubstring (cleanedText raw) 0 20 ++ "...")⟩]

/-- C7: the raw model text is passed to the JSON parser only after
`cleanJsonString` has stripped the code-fence markup; a JSON parse failure,
a present non-STOP finish reason, or a thrown API error each make
`translate` return `none` instead of raising; and on a `none` or
empty-translations result the caller posts no reply. -/
theorem C7_defensive_parsing :
    (∀ cand parseJson, finishBlocked cand.finishReason = true →
       geminiTranslate (GeminiResponse.ok (some cand)) parseJson = none) ∧
    (∀ fr raw parseJson, finishBlocked fr = false → raw ≠ "" →
       geminiTranslate (GeminiResponse.ok (some ⟨fr, some raw⟩)) parseJson
         = parseJson (cleanJsonString raw)) ∧
    (∀ fr raw parseJson, finishBlocked fr = false → raw ≠ "" →
       parseJson (cleanJsonString raw) = none →
       geminiTranslate (GeminiResponse.ok (some ⟨fr, some raw⟩)) parseJson = none) ∧
    (∀ msg parseJson, geminiTranslate (GeminiResponse.apiError msg) parseJson = none) ∧
    (∀ m result, (result = none ∨
         ∃ r, result = some r ∧ (r.translations = none ∨ r.translations = some [])) →
       handler002 m result = []) := by
  refine ⟨?_, ?_, ?_, ?_, ?_⟩
  · intro cand parseJson hblock
    simp [geminiTranslate, hblock]
  · intro fr raw parseJson hfr hraw
    simp [geminiTranslate, hfr, hraw]
  · intro fr raw parseJson hfr hraw hparse
    simp [geminiTranslate, hfr, hraw, hparse]
  · intro msg parseJson
    rfl
  · intro m result h
    have hg : geminiReplyGuard result = none := by
      rcases h with rfl | ⟨r, rfl, hr | hr⟩
      · rfl
      · simp [geminiReplyGuard, hr]
      · simp [geminiReplyGuard, hr]
    unfold handler002
    rw [hg]
    split
    · rfl
    · split
      · rfl
      · split
        · rfl
        · split
          · rfl
          · split
            · rfl
            · rfl

theorem C7_defensive_parsing_witness :
    geminiTranslate (GeminiResponse.ok (some ⟨some "SAFETY", some "x"⟩))
        (fun _ => some ⟨"EN", some []⟩) = none ∧
    geminiTranslate
        (GeminiResponse.ok (some ⟨some "STOP",
          some "```json\n\x7b\"sourceLang\":\"EN\"\x7d\n```"⟩))
        (fun s => if s = "\x7b\"sourceLang\":\"EN\"\x7d"
                  then some ⟨"EN", some [⟨"ES", "hola"⟩]⟩ else none)
      = some ⟨"EN", some [⟨"ES", "hola"⟩]⟩ ∧
    cleanJsonString "```json\n\x7b\"sourceLang\":\"EN\"\x7d\n```"
      = "\x7b\"sourceLang\":\"EN\"\x7d" ∧
    handler002 ⟨none, none, none, some "Hello team, great work", "3.0"⟩
        (some ⟨"EN", some []⟩) = [] := by
  have hclean : cleanJsonString "```json\n\x7b\"sourceLang\":\"EN\"\x7d\n```"
      = "\x7b\"sourceLang\":\"EN\"\x7d" := by decide
  refine ⟨?_, ?_, hclean, ?_⟩
  · exact C7_defensive_parsing.1 ⟨some "SAFETY", some "x"⟩ _ (by decide)
  · have h := C7_defensive_parsing.2.1 (some "STOP")
      "```json\n\x7b\"sourceLang\":\"EN\"\x7d\n```"
      (fun s => if s = "\x7b\"sourceLang\":\"EN\"\x7d"
                then some ⟨"EN", some [⟨"ES", "hola"⟩]⟩ else none)
      (by decide) (by decide)
    rw [h, hclean]
    simp
  · exact C7_defensive_parsing.2.2.2.2 _ (some ⟨"EN", some []⟩)
      (Or.inr ⟨⟨"EN", some []⟩, rfl, Or.inr rfl⟩)

/-! ## Claim C8 — EmojiShield round trip -/

/-- Modelled from the spec: no EmojiShield implementation ships in src/ (the
spec attributes it to other corpus variants), so the component is modelled
from spec section 4.2. The Unicode-aware glyph classification ("emoji
presentation or extended pictographic property") is approximated by the
principal Extended_Pictographic code-point blocks; the round-trip theorems
do not depend on which characters the predicate selects. -/
def isPictographic (c : Char) : Bool :=
  (0x1F300 ≤ c.toNat && c.toNat ≤ 0x1F5FF) ||
  (0x1F600 ≤ c.toNat && c.toNat ≤ 0x1F64F) ||
  (0x1F680 ≤ c.toNat && c.toNat ≤ 0x1F6FF) ||
  (0x1F900 ≤ c.toNat && c.toNat ≤ 0x1FAFF) ||
  (0x1F1E6 ≤ c.toNat && c.toNat ≤ 0x1F1FF) ||
  (0x2600 ≤ c.toNat && c.toNat ≤ 0x27BF)

/-- Modelled from the spec: one token of shielded text — either an ordinary
character kept in place, or the index-tagged placeholder token that replaced
the glyph at that position. -/
inductive ShieldTok where
  | plain (c : Char)
  | marker (i : Nat)
  deriving Repr, DecidableEq

/-- Modelled from the spec: the left-to-right scan of `shield`, carrying the
ordinal index of the next placeholder token. Each glyph is replaced, in
left-to-right order, by the placeholder of its ordinal, and the extracted
glyphs are collected in the same order. -/
def shieldAux : List Char → Nat → List ShieldTok × List Char
  | [], _ => ([], [])
  | c :: cs, i =>
    match isPictographic c with
    | true =>
      (ShieldTok.marker i :: (shieldAux cs (i + 1)).1, c :: (shieldAux cs (i + 1)).2)
    | false =>
      (ShieldTok.plain c :: (shieldAux cs i).1, (shieldAux cs i).2)

/-- Modelled from the spec: `shield(text) -> (shieldedText, placeholders)`. -/
def shield (text : List Char) : List ShieldTok × List Char :=
  shieldAux text 0

/-- Modelled from the spec: `unshield(text, placeholders)` replaces each
indexed placeholder token by the glyph of that ordinal; an out-of-range index
(a corrupted placeholder the fallback substitution patterns could not repair)
is left in place, represented by the replacement character. -/
def unshield (toks : List ShieldTok) (placeholders : List Char) : List Char :=
  toks.map (fun tk =>
    match tk with
    | ShieldTok.plain c => c
    | ShieldTok.marker i => placeholders.getD i '�')

theorem getD_append_length (pre : List Char) (a : Char) (ps : List Char)
    (d : Char) : (pre ++ a :: ps).getD pre.length d = a := by
  induction pre with
  | nil => rfl
  | cons x xs ih => simpa using ih

theorem unshield_shieldAux :
    ∀ (text pre : List Char),
      unshield (shieldAux text pre.length).1 (pre ++ (shieldAux text pre.length).2)
        = text := by
  intro text
  induction text with
  | nil => intro pre; rfl
  | cons c cs ih =>
    intro pre
    by_cases hc : isPictographic c = true
    · have htail := ih (pre ++ [c])
      rw [List.length_append, List.length_singleton] at htail
      rw [List.append_assoc, List.singleton_append] at htail
      simp only [shieldAux, hc, unshield, List.map_cons]
      rw [List.cons.injEq]
      exact ⟨getD_append_length pre c _ _, htail⟩
    · have hc' : isPictographic c = false := by simpa using hc
      have htail := ih pre
      simp only [shieldAux, hc', unshield, List.map_cons]
      rw [List.cons.injEq]
      exact ⟨rfl, htail⟩

theorem shieldAux_no_glyphs :
    ∀ (text : List Char), (∀ c ∈ text, isPictographic c = false) →
      ∀ i, shieldAux text i = (text.map ShieldTok.plain, []) := by
  intro text
  induction text with
  | nil => intro _ i; rfl
  | cons c cs ih =>
    intro h i
    have hc : isPictographic c = false := h c (List.mem_cons_self _ _)
    have ht := ih (fun x hx => h x (List.mem_cons_of_mem _ hx)) i
    simp [shieldAux, hc, ht]

/-- C8: unshielding the shielded text with its placeholder list — the
intervening transform being the identity — reconstructs the original
character sequence, glyphs back in their original positions, for texts with
zero, one or many glyphs; and a text with no glyphs is shielded to itself
(every character kept as a plain token) with an empty placeholder list. -/
theorem C8_emoji_shield_round_trip :
    (∀ text : List Char, unshield (shield text).1 (shield text).2 = text) ∧
    (∀ text : List Char, (∀ c ∈ text, isPictographic c = false) →
       shield text = (text.map ShieldTok.plain, [])) := by
  constructor
  · intro text
    have h := unshield_shieldAux text []
    simpa [shield] using h
  · intro text htext
    exact shieldAux_no_glyphs text htext 0

theorem C8_emoji_shield_round_trip_witness :
    unshield (shield ['O', 'i', ' ', '😀', '🚀']).1
        (shield ['O', 'i', ' ', '😀', '🚀']).2 = ['O', 'i', ' ', '😀', '🚀'] ∧
    (∀ c ∈ ['s', 'e', 'm'], isPictographic c = false) ∧
    shield ['s', 'e', 'm'] = (['s', 'e', 'm'].map ShieldTok.plain, []) := by
  refine ⟨C8_emoji_shield_round_trip.1 _, by decide, ?_⟩
  exact C8_emoji_shield_round_trip.2 ['s', 'e', 'm'] (by decide)
